import Mathlib

/-!
Shallow embedding of the Commitlabs contracts (commitment_core, attestation_engine,
commitment_nft) for checking the natural-language specification against the code.

Conventions of the embedding:
* Soroban `Address` values are opaque identifiers with decidable equality; we model
  them as natural numbers.  The reserved zero address is modelled as `0`.
* Machine integers: `i128` values are modelled as `Int`, `u32`/`u64` as `Nat`;
  explicit bounds appear where the source checks overflow (`expires_at` on `u64`)
  or saturates (`saturating_mul` on `i128`).
* Rust `/` on `i128` truncates toward zero, which is `Int.tdiv`; `Int.fdiv` is
  floor division and is used only in definitions that follow the spec's words.
* A Soroban panic aborts the whole transaction and rolls back every storage write
  made inside it, so every contract entry point is modelled as a function
  `State → Except Error (Result × Interactions × State)`: on `Except.error` no state
  change is observable.
* External collaborator calls (token transfers, NFT invocations) are recorded in an
  `Interactions` trace; values the collaborators return (the owner's token balance,
  the minted token id) are passed in as parameters.
-/

/-- Addresses are opaque identifiers; modelled as naturals. -/
abbrev Address := Nat

/-- The reserved zero address (`GAAA...AWHF` in the source). -/
def zeroAddress : Address := 0

/-- The commitment-core contract's own address (`e.current_contract_address()`). -/
def coreContractAddress : Address := 999

/-- The attestation-engine contract's own address. -/
def engineContractAddress : Address := 998

/-- First-match association-list lookup, mirroring keyed contract storage reads. -/
def lookupKV {α β : Type} [DecidableEq α] : List (α × β) → α → Option β
  | [], _ => none
  | (k, v) :: t, k0 => if k = k0 then some v else lookupKV t k0

/-- Association-list overwrite-or-append, mirroring keyed contract storage writes. -/
def setKV {α β : Type} [DecidableEq α] : List (α × β) → α → β → List (α × β)
  | [], k0, v0 => [(k0, v0)]
  | (k, v) :: t, k0, v0 => if k = k0 then (k0, v0) :: t else (k, v) :: setKV t k0 v0

/-- Remove the first occurrence of an element (the source finds the position of the
first match and removes that index; absent elements leave the list unchanged). -/
def removeFirst {α : Type} [DecidableEq α] : List α → α → List α
  | [], _ => []
  | x :: t, y => if x = y then t else x :: removeFirst t y

/-- Largest `i128` value, for the saturating multiplication in the engine. -/
def i128Max : Int := 2 ^ 127 - 1

/-- Smallest `i128` value. -/
def i128Min : Int := -(2 ^ 127)

/-- Rust `i128::saturating_mul`. -/
def i128SatMul (a b : Int) : Int :=
  let p := a * b
  if p > i128Max then i128Max else if p < i128Min then i128Min else p

-- ─── commitment_core: data model ─────────────────────────────────────────────

/-- Error enum of `commitment_core` (`CommitmentError` in the source), extended with
`ContractPaused`: `Pausable::require_not_paused` lives in `shared_utils` whose module
sources are not in the repository snapshot; modelled from the spec ("boolean flag
gating all mutating operations"), it aborts the call when the pause flag is set. -/
inductive CommitmentError where
  | InvalidDuration
  | InvalidMaxLossPercent
  | InvalidCommitmentType
  | InvalidAmount
  | InsufficientBalance
  | TransferFailed
  | MintingFailed
  | CommitmentNotFound
  | Unauthorized
  | AlreadyInitialized
  | AlreadySettled
  | ReentrancyDetected
  | NotActive
  | InvalidStatus
  | NotInitialized
  | NotExpired
  | ValueUpdateViolation
  | NotAuthorizedUpdater
  | ZeroAddress
  | ExpirationOverflow
  | ContractPaused
deriving DecidableEq, Repr

/-- `CommitmentRules` of the source. -/
structure CommitmentRules where
  duration_days : Nat
  max_loss_percent : Nat
  commitment_type : String
  early_exit_penalty : Nat
  min_fee_threshold : Int
  grace_period_days : Nat
deriving DecidableEq, Repr

/-- `Commitment` record of the source; `status` is the source's string field
("active", "settled", "violated", "early_exit"). -/
structure Commitment where
  commitment_id : String
  owner : Address
  nft_token_id : Nat
  rules : CommitmentRules
  amount : Int
  asset_address : Address
  created_at : Nat
  expires_at : Nat
  current_value : Int
  status : String
deriving DecidableEq, Repr

/-- Instance storage of the commitment-core contract (the `DataKey` map). -/
structure CoreState where
  admin : Option Address
  nftContract : Option Address
  allocationContract : Option Address
  commitments : List (String × Commitment)
  ownerCommitments : List (Address × List String)
  totalCommitments : Nat
  reentrancyGuard : Bool
  totalValueLocked : Int
  authorizedUpdaters : List Address
  paused : Bool
deriving DecidableEq, Repr

/-- Fresh (never-written) storage. -/
def emptyCore : CoreState :=
  { admin := none
  , nftContract := none
  , allocationContract := none
  , commitments := []
  , ownerCommitments := []
  , totalCommitments := 0
  , reentrancyGuard := false
  , totalValueLocked := 0
  , authorizedUpdaters := []
  , paused := false }

/-- One outgoing call from the core contract to the position-token (NFT) contract.
The core's `settle` and `early_exit` both invoke the NFT function named `"settle"`;
`markInactive` is in the vocabulary because the NFT contract exposes it, but the core
has no call site for it. -/
inductive NftCall where
  | mint (owner : Address) (commitment_id : String)
  | settleToken (token_id : Nat)
  | markInactive (token_id : Nat)
deriving DecidableEq, Repr

/-- External interactions performed by one contract call: token transfers
`(from, to, amount)` and NFT-contract invocations. -/
structure Interactions where
  transfers : List (Address × Address × Int)
  nftCalls : List NftCall
deriving DecidableEq, Repr

/-- No external interactions. -/
def noInteractions : Interactions := { transfers := [], nftCalls := [] }

-- ─── commitment_core: operations ─────────────────────────────────────────────

/-- `generate_commitment_id`: `"c_"` followed by the decimal digits of the counter
(the source renders the digits by hand into a byte buffer; `Nat.repr` produces the
same decimal string). -/
def generate_commitment_id (counter : Nat) : String :=
  "c_" ++ Nat.repr counter

/-- Modelled from the spec: `SafeMath::penalty_amount` lives in the missing
`shared_utils::math` module; per the spec, `penalty = floor(currentValue ·
earlyExitPenaltyPercent / 100)`. -/
def SafeMath_penalty_amount (current_value : Int) (early_exit_penalty : Nat) : Int :=
  Int.fdiv (current_value * (early_exit_penalty : Int)) 100

/-- Modelled from the spec: `SafeMath::loss_percent` lives in the missing
`shared_utils::math` module; per the spec, `lossPercent = floor((lockedAmount −
currentValue) · 100 / lockedAmount)`. -/
def SafeMath_loss_percent (amount current_value : Int) : Int :=
  Int.fdiv ((amount - current_value) * 100) amount

/-- `initialize` of the core contract. -/
def initializeCore (st : CoreState) (admin : Address) (nft_contract : Address) :
    Except CommitmentError CoreState :=
  if st.admin.isSome then .error .AlreadyInitialized
  else .ok { st with
    admin := some admin
    nftContract := some nft_contract
    totalCommitments := 0
    totalValueLocked := 0
    paused := false }

/-- `create_commitment`.  Collaborator results are parameters: `owner_balance` is what
`token.balance(owner)` returns, `minted_token_id` is what the NFT `mint` call returns.
The amount/rules validations delegate to `shared_utils::Validation` whose code is not
in the snapshot; their checks are modelled from the spec ("amount > 0; rules valid
(duration>0, 0≤maxLoss≤100, type∈{safe,balanced,aggressive})") and the expiration
check from the spec's "explicit overflow detection" of `now + durationDays·86400` on
`u64`.  The source stores the commitment with `nft_token_id = 0`, transfers, mints,
then overwrites with the returned token id; only the final state is observable. -/
def create_commitment (st : CoreState) (now : Nat) (owner : Address) (amount : Int)
    (asset_address : Address) (rules : CommitmentRules)
    (owner_balance : Int) (minted_token_id : Nat) :
    Except CommitmentError (String × Interactions × CoreState) :=
  if st.reentrancyGuard then .error .ReentrancyDetected
  else if st.paused then .error .ContractPaused
  else if owner = zeroAddress then .error .ZeroAddress
  else if amount ≤ 0 then .error .InvalidAmount
  else if rules.duration_days = 0 then .error .InvalidDuration
  else if rules.max_loss_percent > 100 then .error .InvalidMaxLossPercent
  else if ¬ (rules.commitment_type = "safe" ∨ rules.commitment_type = "balanced" ∨
      rules.commitment_type = "aggressive") then .error .InvalidCommitmentType
  else if owner_balance < amount then .error .InsufficientBalance
  else if now + rules.duration_days * 86400 ≥ 2 ^ 64 then .error .ExpirationOverflow
  else
    match st.nftContract with
    | none => .error .NotInitialized
    | some _ =>
      let expires_at := now + rules.duration_days * 86400
      let commitment_id := generate_commitment_id st.totalCommitments
      if (lookupKV st.commitments commitment_id).isSome then .error .InvalidStatus
      else
        let commitment : Commitment :=
          { commitment_id := commitment_id
          , owner := owner
          , nft_token_id := minted_token_id
          , rules := rules
          , amount := amount
          , asset_address := asset_address
          , created_at := now
          , expires_at := expires_at
          , current_value := amount
          , status := "active" }
        let owner_list := (lookupKV st.ownerCommitments owner).getD []
        let st1 : CoreState :=
          { st with
            commitments := setKV st.commitments commitment_id commitment
            ownerCommitments := setKV st.ownerCommitments owner
              (owner_list ++ [commitment_id])
            totalCommitments := st.totalCommitments + 1
            totalValueLocked := st.totalValueLocked + amount }
        .ok (commitment_id,
             { transfers := [(owner, coreContractAddress, amount)]
             , nftCalls := [NftCall.mint owner commitment_id] },
             st1)

/-- `update_value`.  The source authorizes only `caller == admin` or `caller ==
allocation_contract`; the `AuthorizedUpdaters` storage entry is read nowhere in this
function.  `Validation::require_non_negative` (missing module) is modelled from the
spec's "newValue ≥ 0".  Violation detection uses Rust truncating division. -/
def update_value (st : CoreState) (caller : Address) (commitment_id : String)
    (new_value : Int) :
    Except CommitmentError (Unit × Interactions × CoreState) :=
  match st.admin with
  | none => .error .NotInitialized
  | some admin =>
    let is_authorized := caller = admin ∨ st.allocationContract = some caller
    if ¬ is_authorized then .error .Unauthorized
    else if new_value < 0 then .error .InvalidAmount
    else
      match lookupKV st.commitments commitment_id with
      | none => .error .CommitmentNotFound
      | some c =>
        if c.status ≠ "active" then .error .NotActive
        else
          let old_value := c.current_value
          let loss_percent : Int :=
            if c.amount > 0 then Int.tdiv ((c.amount - new_value) * 100) c.amount else 0
          let violated := loss_percent > (c.rules.max_loss_percent : Int)
          let c2 : Commitment :=
            { c with
              current_value := new_value
              status := if violated then "violated" else c.status }
          .ok ((),
               noInteractions,
               { st with
                 commitments := setKV st.commitments commitment_id c2
                 totalValueLocked := st.totalValueLocked - old_value + new_value })

/-- `check_violations` (read-only). -/
def check_violations (st : CoreState) (now : Nat) (commitment_id : String) :
    Except CommitmentError Bool :=
  match lookupKV st.commitments commitment_id with
  | none => .error .CommitmentNotFound
  | some c =>
    if c.status ≠ "active" then .ok false
    else
      let loss_percent : Int :=
        if c.amount > 0 then SafeMath_loss_percent c.amount c.current_value else 0
      let loss_violated := loss_percent > (c.rules.max_loss_percent : Int)
      let duration_violated := now ≥ c.expires_at
      .ok (loss_violated ∨ duration_violated : Bool)

/-- `settle`: permissionless settlement at maturity.  Check order as in the source:
missing → `CommitmentNotFound`; `now < expires_at` → `NotExpired`; status already
`"settled"` → `AlreadySettled`; any other non-`"active"` status → `NotActive`.
On success: status `"settled"` (the stored `current_value` is left unchanged), the id
is removed from the owner index, TVL is decreased by the settlement amount floored at
0, the settlement amount is transferred to the owner, and the NFT contract's
`"settle"` entry is invoked on the bound token. -/
def settle (st : CoreState) (now : Nat) (commitment_id : String) :
    Except CommitmentError (Unit × Interactions × CoreState) :=
  if st.reentrancyGuard then .error .ReentrancyDetected
  else if st.paused then .error .ContractPaused
  else
    match lookupKV st.commitments commitment_id with
    | none => .error .CommitmentNotFound
    | some c =>
      if now < c.expires_at then .error .NotExpired
      else if c.status = "settled" then .error .AlreadySettled
      else if c.status ≠ "active" then .error .NotActive
      else
        match st.nftContract with
        | none => .error .NotInitialized
        | some _ =>
          let settlement_amount := c.current_value
          let c2 : Commitment := { c with status := "settled" }
          let new_tvl :=
            if st.totalValueLocked > settlement_amount
            then st.totalValueLocked - settlement_amount else 0
          let owner_list := (lookupKV st.ownerCommitments c.owner).getD []
          .ok ((),
               { transfers := [(coreContractAddress, c.owner, settlement_amount)]
               , nftCalls := [NftCall.settleToken c.nft_token_id] },
               { st with
                 commitments := setKV st.commitments commitment_id c2
                 ownerCommitments := setKV st.ownerCommitments c.owner
                   (removeFirst owner_list commitment_id)
                 totalValueLocked := new_tvl })

/-- `early_exit`: owner-only exit before maturity.  `SafeMath::penalty_amount` and
`SafeMath::sub` are in the missing `shared_utils::math`; modelled from the spec
(`penalty = floor(v·pct/100)`, `returned = v − penalty`).  The source sets
`commitment.current_value = 0` and only afterwards computes
`new_tvl = current_tvl - commitment.current_value`, i.e. it subtracts the
already-zeroed field; this embedding mirrors that read-after-write order.  The id is
not removed from the owner index, and the outgoing NFT invocation is the entry named
`"settle"`, not `mark_inactive`. -/
def early_exit (st : CoreState) (commitment_id : String) (caller : Address) :
    Except CommitmentError (Unit × Interactions × CoreState) :=
  if st.reentrancyGuard then .error .ReentrancyDetected
  else if st.paused then .error .ContractPaused
  else
    match lookupKV st.commitments commitment_id with
    | none => .error .CommitmentNotFound
    | some c =>
      if c.owner ≠ caller then .error .Unauthorized
      else if c.status ≠ "active" then .error .NotActive
      else
        match st.nftContract with
        | none => .error .NotInitialized
        | some _ =>
          let penalty_amount := SafeMath_penalty_amount c.current_value c.rules.early_exit_penalty
          let returned_amount := c.current_value - penalty_amount
          let c2 : Commitment := { c with status := "early_exit", current_value := 0 }
          let new_tvl := st.totalValueLocked - c2.current_value
          .ok ((),
               { transfers :=
                   if returned_amount > 0
                   then [(coreContractAddress, c.owner, returned_amount)] else []
               , nftCalls := [NftCall.settleToken c.nft_token_id] },
               { st with
                 commitments := setKV st.commitments commitment_id c2
                 totalValueLocked := new_tvl })

/-- `allocate`: reduces `current_value` and transfers to the target pool.  The source
contains no write to `TotalValueLocked` in this function. -/
def allocate (st : CoreState) (commitment_id : String) (target_pool : Address)
    (amount : Int) :
    Except CommitmentError (Unit × Interactions × CoreState) :=
  if st.reentrancyGuard then .error .ReentrancyDetected
  else if st.paused then .error .ContractPaused
  else if amount ≤ 0 then .error .InvalidAmount
  else
    match lookupKV st.commitments commitment_id with
    | none => .error .CommitmentNotFound
    | some c =>
      if c.status ≠ "active" then .error .NotActive
      else if c.current_value < amount then .error .InsufficientBalance
      else
        let c2 : Commitment := { c with current_value := c.current_value - amount }
        .ok ((),
             { transfers := [(coreContractAddress, target_pool, amount)]
             , nftCalls := [] },
             { st with commitments := setKV st.commitments commitment_id c2 })

/-- `add_updater` (admin-only), appending to the `AuthorizedUpdaters` whitelist. -/
def add_updater (st : CoreState) (caller : Address) (updater : Address) :
    Except CommitmentError CoreState :=
  match st.admin with
  | none => .error .NotInitialized
  | some admin =>
    if caller ≠ admin then .error .Unauthorized
    else if updater ∈ st.authorizedUpdaters then .ok st
    else .ok { st with authorizedUpdaters := st.authorizedUpdaters ++ [updater] }

-- ─── commitment_core: derived notions used by the claims ─────────────────────

/-- Sum of `current_value` over all commitments whose status is `"active"`. -/
def sumActiveValue (st : CoreState) : Int :=
  (st.commitments.map (fun kv => if kv.2.status = "active" then kv.2.current_value else 0)).sum

/-- The spec's aggregate invariant, as a decidable check:
`TotalValueLocked == Σ(currentValue over Active commitments)`. -/
def tvlInvariant (st : CoreState) : Bool :=
  st.totalValueLocked == sumActiveValue st

-- ─── attestation_engine: data model ──────────────────────────────────────────

/-!
The `attestation_engine` source file contains two divergent implementations
concatenated by an unresolved branch merge.  Following the repository's own design
note, the embedding below follows the more complete, explicitly-structured
`feat/compliance-verification` branch (the first of the two concatenated versions:
`DataKey`-keyed storage, `HealthState` aggregation, live drawdown from the core
ledger).  Neither branch contains any verifier whitelist: `attest` is commented
"Public by design" in the source.
-/

/-- `HealthState` of the engine: note there is no stored drawdown field. -/
structure HealthState where
  fees_generated : Int
  volatility_exposure : Int
  last_attestation : Nat
  compliance_score : Nat
deriving DecidableEq, Repr

/-- `Attestation` record; `data` is the source's `Map<String, String>`. -/
structure Attestation where
  commitment_id : String
  timestamp : Nat
  attestation_type : String
  data : List (String × String)
  is_compliant : Bool
  verified_by : Address
deriving DecidableEq, Repr

/-- `HealthMetrics` returned by `get_health_metrics`. -/
structure HealthMetrics where
  commitment_id : String
  current_value : Int
  initial_value : Int
  drawdown_percent : Int
  fees_generated : Int
  volatility_exposure : Int
  last_attestation : Nat
  compliance_score : Nat
deriving DecidableEq, Repr

/-- Persistent storage of the attestation engine. -/
structure EngineState where
  admin : Option Address
  commitmentCore : Option Address
  health : List (String × HealthState)
  attestations : List (String × List Attestation)
deriving DecidableEq, Repr

/-- Fresh engine storage. -/
def emptyEngine : EngineState :=
  { admin := none, commitmentCore := none, health := [], attestations := [] }

/-- The lazily-created default `HealthState`. -/
def defaultHealthState : HealthState :=
  { fees_generated := 0, volatility_exposure := 0, last_attestation := 0
  , compliance_score := 0 }

-- ─── attestation_engine: operations ──────────────────────────────────────────

/-- `initialize` of the engine (the source stores admin and core refs; no
repeat-initialization guard appears in either merged branch). -/
def initializeEngine (s : EngineState) (admin : Address) (commitment_core : Address) :
    EngineState :=
  { s with admin := some admin, commitmentCore := some commitment_core }

/-- `get_health_state_or_default`. -/
def get_health_state_or_default (s : EngineState) (commitment_id : String) : HealthState :=
  (lookupKV s.health commitment_id).getD defaultHealthState

/-- `calc_drawdown_percent`: live drawdown from the ledger's `amount` and
`current_value`, clamped to 0 for non-positive initial value or non-positive loss;
the source multiplies with `i128::saturating_mul`. -/
def calc_drawdown_percent (initial_value current_value : Int) : Int :=
  if initial_value ≤ 0 then 0
  else
    let loss := initial_value - current_value
    if loss ≤ 0 then 0
    else Int.tdiv (i128SatMul loss 100) initial_value

/-- `get_attestations`: the full ordered log, empty if none. -/
def get_attestations (s : EngineState) (commitment_id : String) : List Attestation :=
  (lookupKV s.attestations commitment_id).getD []

/-- `get_health_metrics`: composes the core ledger's commitment (a cross-contract
`get_commitment`, which aborts with `CommitmentNotFound` for an unknown id) with the
engine's stored `HealthState`; `drawdown_percent` is recomputed live. -/
def get_health_metrics (s : EngineState) (core : CoreState) (commitment_id : String) :
    Except CommitmentError HealthMetrics :=
  match lookupKV core.commitments commitment_id with
  | none => .error .CommitmentNotFound
  | some c =>
    let state := get_health_state_or_default s commitment_id
    .ok { commitment_id := commitment_id
        , current_value := c.current_value
        , initial_value := c.amount
        , drawdown_percent := calc_drawdown_percent c.amount c.current_value
        , fees_generated := state.fees_generated
        , volatility_exposure := state.volatility_exposure
        , last_attestation := state.last_attestation
        , compliance_score := state.compliance_score }

/-- `verify_compliance`: conjunction of loss, duration, fee, cached-score, live
violation and status checks, reading the core ledger cross-contract. -/
def verify_compliance (s : EngineState) (core : CoreState) (now : Nat)
    (commitment_id : String) : Except CommitmentError Bool :=
  match lookupKV core.commitments commitment_id with
  | none => .error .CommitmentNotFound
  | some c =>
    match get_health_metrics s core commitment_id with
    | .error e => .error e
    | .ok health =>
      match check_violations core now commitment_id with
      | .error e => .error e
      | .ok has_violations =>
        let loss_ok := decide (health.drawdown_percent ≤ (c.rules.max_loss_percent : Int))
        let duration_ok :=
          if c.rules.duration_days = 0 then true else decide (now ≤ c.expires_at)
        let fee_ok :=
          if c.rules.min_fee_threshold ≤ 0 then true
          else decide (health.fees_generated ≥ c.rules.min_fee_threshold)
        let overall_health_ok :=
          decide (health.compliance_score = 0) || decide (health.compliance_score ≥ 80)
        let status_ok := !(decide (c.status = "violated"))
        .ok (loss_ok && duration_ok && fee_ok && overall_health_ok &&
             !has_violations && status_ok)

/-- `attest`: computes `is_compliant` via `verify_compliance`, appends exactly one
`Attestation` to the per-commitment log, and bumps `HealthState.last_attestation`.
No caller check of any kind appears in the source ("Public by design"); fee or
drawdown payloads in `data` are not parsed and no other `HealthState` field is
touched. -/
def attest (s : EngineState) (core : CoreState) (now : Nat)
    (commitment_id attestation_type : String) (data : List (String × String))
    (verified_by : Address) : Except CommitmentError EngineState :=
  match verify_compliance s core now commitment_id with
  | .error e => .error e
  | .ok is_compliant =>
    let att : Attestation :=
      { commitment_id := commitment_id
      , timestamp := now
      , attestation_type := attestation_type
      , data := data
      , is_compliant := is_compliant
      , verified_by := verified_by }
    let list := (lookupKV s.attestations commitment_id).getD []
    let s1 : EngineState :=
      { s with attestations := setKV s.attestations commitment_id (list ++ [att]) }
    let state := get_health_state_or_default s1 commitment_id
    .ok { s1 with
          health := setKV s1.health commitment_id
            { state with last_attestation := now } }

/-- `record_fees`: plain (non-saturating, non-checked) `+=` into
`HealthState.fees_generated`. -/
def record_fees (s : EngineState) (commitment_id : String) (fee_amount : Int) :
    EngineState :=
  let state := get_health_state_or_default s commitment_id
  { s with
    health := setKV s.health commitment_id
      { state with fees_generated := state.fees_generated + fee_amount } }

/-- `record_drawdown`: the source explicitly discards the `drawdown_percent`
argument (`let _ = drawdown_percent`) and merely files a `"drawdown"` attestation
verified by the engine contract itself; no drawdown value is stored anywhere. -/
def record_drawdown (s : EngineState) (core : CoreState) (now : Nat)
    (commitment_id : String) (drawdown_percent : Int) :
    Except CommitmentError EngineState :=
  let _ := drawdown_percent
  attest s core now commitment_id "drawdown" [] engineContractAddress

-- ─── commitment_nft: data model ──────────────────────────────────────────────

/-- Error enum of `commitment_nft` (`ContractError` in the source) extended with
`Paused` and `Emergency`: `Pausable` and `EmergencyControl` live in the missing
`shared_utils` modules; modelled from the spec's pause flag ("gating all mutating
operations") and the `require_not_emergency` call sites, they abort the call when
the respective flag is set. -/
inductive ContractError where
  | NotInitialized
  | AlreadyInitialized
  | TokenNotFound
  | InvalidTokenId
  | NotOwner
  | NotAuthorized
  | TransferNotAllowed
  | AlreadySettled
  | NotExpired
  | InvalidDuration
  | InvalidMaxLoss
  | InvalidCommitmentType
  | InvalidAmount
  | ReentrancyDetected
  | InvalidWasmHash
  | InvalidVersion
  | AlreadyMigrated
  | TransferToZeroAddress
  | NFTLocked
  | ExpirationOverflow
  | InvalidCommitmentId
  | Paused
  | Emergency
deriving DecidableEq, Repr

/-- `CommitmentMetadata` of the NFT contract. -/
structure CommitmentMetadata where
  commitment_id : String
  duration_days : Nat
  max_loss_percent : Nat
  commitment_type : String
  created_at : Nat
  expires_at : Nat
  initial_amount : Int
  asset_address : Address
deriving DecidableEq, Repr

/-- `CommitmentNFT` of the NFT contract. -/
structure CommitmentNFT where
  owner : Address
  token_id : Nat
  metadata : CommitmentMetadata
  is_active : Bool
  early_exit_penalty : Nat
deriving DecidableEq, Repr

/-- Storage of the NFT contract (the `DataKey` map). -/
structure NftState where
  admin : Option Address
  tokenCounter : Nat
  tokenIds : List Nat
  nfts : List (Nat × CommitmentNFT)
  ownerBalance : List (Address × Nat)
  ownerTokens : List (Address × List Nat)
  coreContract : Option Address
  authorizedMinters : List Address
  reentrancyGuard : Bool
  commitmentIdIndex : List (String × Nat)
  paused : Bool
  emergency : Bool
deriving DecidableEq, Repr

/-- Fresh NFT storage. -/
def emptyNft : NftState :=
  { admin := none, tokenCounter := 0, tokenIds := [], nfts := []
  , ownerBalance := [], ownerTokens := [], coreContract := none
  , authorizedMinters := [], reentrancyGuard := false, commitmentIdIndex := []
  , paused := false, emergency := false }

-- ─── commitment_nft: operations ──────────────────────────────────────────────

/-- `format_commitment_id`: the source enumerates the hundred literal strings
`"COMMIT_0" .. "COMMIT_99"` in a lookup table indexed by `token_id` (entry `i` is
exactly `"COMMIT_"` followed by the decimal digits of `i`) and falls back to the
constant `"COMMIT_MAX"` for every `token_id ≥ 100`. -/
def format_commitment_id (token_id : Nat) : String :=
  if token_id < 100 then "COMMIT_" ++ Nat.repr token_id else "COMMIT_MAX"

/-- `initialize` of the NFT contract. -/
def initializeNft (st : NftState) (admin : Address) : Except ContractError NftState :=
  if st.admin.isSome then .error .AlreadyInitialized
  else .ok { st with admin := some admin, tokenCounter := 0, tokenIds := [], paused := false }

/-- `mint` of the NFT contract.  The caller-supplied `_commitment_id` argument is
bound with a leading underscore in the source and is used nowhere: the stored
`metadata.commitment_id` and the reverse-lookup index key are the self-generated
`format_commitment_id token_id`, and the index write overwrites any previous entry
under the same key. -/
def mint (st : NftState) (now : Nat) (caller owner : Address) (_commitment_id : String)
    (duration_days max_loss_percent : Nat) (commitment_type : String)
    (initial_amount : Int) (asset_address : Address) (early_exit_penalty : Nat) :
    Except ContractError (Nat × NftState) :=
  if st.reentrancyGuard then .error .ReentrancyDetected
  else if st.emergency then .error .Emergency
  else if st.paused then .error .Paused
  else
    match st.admin with
    | none => .error .NotInitialized
    | some admin =>
      let allowed := caller = admin ∨ st.coreContract = some caller ∨
        caller ∈ st.authorizedMinters
      if ¬ allowed then .error .NotAuthorized
      else if duration_days = 0 then .error .InvalidDuration
      else if max_loss_percent > 100 then .error .InvalidMaxLoss
      else if ¬ (commitment_type = "safe" ∨ commitment_type = "balanced" ∨
          commitment_type = "aggressive") then .error .InvalidCommitmentType
      else if initial_amount ≤ 0 then .error .InvalidAmount
      else if duration_days * 86400 ≥ 2 ^ 64 then .error .ExpirationOverflow
      else if now + duration_days * 86400 ≥ 2 ^ 64 then .error .ExpirationOverflow
      else
        let token_id := st.tokenCounter
        let generated_commitment_id := format_commitment_id token_id
        let metadata : CommitmentMetadata :=
          { commitment_id := generated_commitment_id
          , duration_days := duration_days
          , max_loss_percent := max_loss_percent
          , commitment_type := commitment_type
          , created_at := now
          , expires_at := now + duration_days * 86400
          , initial_amount := initial_amount
          , asset_address := asset_address }
        let nft : CommitmentNFT :=
          { owner := owner
          , token_id := token_id
          , metadata := metadata
          , is_active := true
          , early_exit_penalty := early_exit_penalty }
        .ok (token_id,
             { st with
               tokenCounter := token_id + 1
               commitmentIdIndex :=
                 setKV st.commitmentIdIndex generated_commitment_id token_id
               nfts := setKV st.nfts token_id nft
               ownerBalance := setKV st.ownerBalance owner
                 (((lookupKV st.ownerBalance owner).getD 0) + 1)
               ownerTokens := setKV st.ownerTokens owner
                 (((lookupKV st.ownerTokens owner).getD []) ++ [token_id])
               tokenIds := st.tokenIds ++ [token_id] })

/-- `get_commitment_by_id`: reverse lookup through `CommitmentIdIndex`. -/
def get_commitment_by_id (st : NftState) (commitment_id : String) :
    Except ContractError CommitmentNFT :=
  match lookupKV st.commitmentIdIndex commitment_id with
  | none => .error .TokenNotFound
  | some token_id =>
    match lookupKV st.nfts token_id with
    | none => .error .TokenNotFound
    | some nft => .ok nft

/-- `mark_inactive` of the NFT contract: no expiry requirement (documented in the
source as being "for early exit or other non-expiry scenarios"). -/
def mark_inactive (st : NftState) (token_id : Nat) : Except ContractError NftState :=
  if st.reentrancyGuard then .error .ReentrancyDetected
  else if st.emergency then .error .Emergency
  else if st.paused then .error .Paused
  else
    match lookupKV st.nfts token_id with
    | none => .error .TokenNotFound
    | some nft =>
      if !nft.is_active then .error .AlreadySettled
      else .ok { st with nfts := setKV st.nfts token_id { nft with is_active := false } }

/-- `settle` of the NFT contract (named `nft_settle` here to avoid clashing with the
core's `settle`): unlike `mark_inactive`, it rejects with `NotExpired` any token
whose `expires_at` is still in the future, so it cannot serve a pre-expiry early
exit. -/
def nft_settle (st : NftState) (now : Nat) (token_id : Nat) :
    Except ContractError NftState :=
  if st.reentrancyGuard then .error .ReentrancyDetected
  else if st.emergency then .error .Emergency
  else if st.paused then .error .Paused
  else
    match lookupKV st.nfts token_id with
    | none => .error .TokenNotFound
    | some nft =>
      if !nft.is_active then .error .AlreadySettled
      else if now < nft.metadata.expires_at then .error .NotExpired
      else .ok { st with nfts := setKV st.nfts token_id { nft with is_active := false } }

-- ─── concrete fixtures used by the claim theorems ────────────────────────────

/-- Extract the post-state of a core operation result (fresh storage on error). -/
def coreStateOf {α : Type} (r : Except CommitmentError (α × Interactions × CoreState)) :
    CoreState :=
  match r with
  | .ok (_, _, st) => st
  | .error _ => emptyCore

/-- Extract the post-state of an engine operation result (fresh storage on error). -/
def engineStateOf (r : Except CommitmentError EngineState) : EngineState :=
  match r with
  | .ok s => s
  | .error _ => emptyEngine

/-- The status stored under `commitment_id` after a successful `update_value`
(`none` if the call fails). -/
def statusAfterUpdate (st : CoreState) (caller : Address) (commitment_id : String)
    (new_value : Int) : Option String :=
  match update_value st caller commitment_id new_value with
  | .ok (_, _, st2) => (lookupKV st2.commitments commitment_id).map Commitment.status
  | .error _ => none

/-- Example rules: 30 days, 10% max loss, balanced, 10% early-exit penalty. -/
def exRules : CommitmentRules :=
  { duration_days := 30, max_loss_percent := 10, commitment_type := "balanced"
  , early_exit_penalty := 10, min_fee_threshold := 0, grace_period_days := 0 }

/-- Core storage after `initialize(admin := 1, nft_contract := 2)`. -/
def exStInit : CoreState :=
  match initializeCore emptyCore 1 2 with
  | .ok st => st
  | .error _ => emptyCore

/-- Core storage after additionally
`create_commitment(owner := 3, amount := 1000, asset := 4, exRules)` at time 0
(owner balance 1000, minted position token 7); the created id is `"c_0"`. -/
def exStCreated : CoreState :=
  coreStateOf (create_commitment exStInit 0 3 1000 4 exRules 1000 7)

/-- The commitment record stored under `"c_0"` in `exStCreated`. -/
def exCommitment : Commitment :=
  { commitment_id := "c_0", owner := 3, nft_token_id := 7, rules := exRules
  , amount := 1000, asset_address := 4, created_at := 0, expires_at := 2592000
  , current_value := 1000, status := "active" }

/-- Core storage after additionally `early_exit("c_0", caller := 3)`. -/
def exStExited : CoreState :=
  coreStateOf (early_exit exStCreated "c_0" 3)

/-- Core storage after instead `update_value(caller := 1, "c_0", 700)`
(a Violated transition: loss 30% > 10%). -/
def exStViolated : CoreState :=
  coreStateOf (update_value exStCreated 1 "c_0" 700)

/-- Core storage after instead `allocate("c_0", target_pool := 50, 100)`. -/
def exStAllocated : CoreState :=
  coreStateOf (allocate exStCreated "c_0" 50 100)

/-- Engine storage after `initialize(admin := 1, commitment_core := 999)`. -/
def exEngine : EngineState := initializeEngine emptyEngine 1 999

/-- Following the spec's words: `lossPercent = floor((lockedAmount − newValue) · 100
/ lockedAmount)`; stated with floor division to compare against the source's
truncating division. -/
def lossPercentSpec (lockedAmount newValue : Int) : Int :=
  Int.fdiv ((lockedAmount - newValue) * 100) lockedAmount

/-- Decidable equality of operation results, so concrete runs can be checked by
`decide`. -/
instance {ε α : Type} [DecidableEq ε] [DecidableEq α] : DecidableEq (Except ε α) :=
  fun x y =>
    match x, y with
    | .ok a, .ok b =>
      if h : a = b then .isTrue (by rw [h]) else .isFalse (by simp [h])
    | .error a, .error b =>
      if h : a = b then .isTrue (by rw [h]) else .isFalse (by simp [h])
    | .ok _, .error _ => .isFalse (by simp)
    | .error _, .ok _ => .isFalse (by simp)

/-- Core storage after additionally `add_updater(caller := 1, updater := 5)` on
`exStCreated` (admin 1; no allocation contract configured). -/
def exStWithUpdater : CoreState :=
  match add_updater exStCreated 1 5 with
  | .ok st => st
  | .error _ => emptyCore

/-- Engine storage after `attest(c_0, "fee_generation", {amount: 10})`. -/
def c7Engine1 : EngineState :=
  engineStateOf (attest exEngine exStCreated 0 "c_0" "fee_generation" [("amount", "10")] 9)

/-- Engine storage after additionally `attest(c_0, "fee_generation", {amount: 20})`. -/
def c7Engine2 : EngineState :=
  engineStateOf (attest c7Engine1 exStCreated 0 "c_0" "fee_generation" [("amount", "20")] 9)

/-- Engine storage after `record_drawdown(c_0, 5)`. -/
def c8Engine1 : EngineState :=
  engineStateOf (record_drawdown exEngine exStCreated 0 "c_0" 5)

/-- Engine storage after additionally `record_drawdown(c_0, 15)`. -/
def c8Engine2 : EngineState :=
  engineStateOf (record_drawdown c8Engine1 exStCreated 0 "c_0" 15)

/-- The position token bound to `exCommitment` (token 7, active, expiring at
2592000). -/
def exNftToken : CommitmentNFT :=
  { owner := 3, token_id := 7
  , metadata :=
      { commitment_id := "COMMIT_7", duration_days := 30, max_loss_percent := 10
      , commitment_type := "balanced", created_at := 0, expires_at := 2592000
      , initial_amount := 1000, asset_address := 4 }
  , is_active := true, early_exit_penalty := 10 }

/-- NFT storage holding `exNftToken`. -/
def exNftSt : NftState :=
  { emptyNft with admin := some 1, tokenCounter := 8, nfts := [(7, exNftToken)] }

/-- NFT storage with 100 tokens already minted (counter at 100). -/
def exNft100 : NftState :=
  { emptyNft with admin := some 1, tokenCounter := 100 }

-- ─── shared lemmas ───────────────────────────────────────────────────────────

theorem lookupKV_setKV_self {α β : Type} [DecidableEq α]
    (l : List (α × β)) (k : α) (v : β) : lookupKV (setKV l k v) k = some v := by
  induction l with
  | nil => simp [setKV, lookupKV]
  | cons h t ih =>
    obtain ⟨k1, v1⟩ := h
    by_cases hk : k1 = k
    · simp [setKV, lookupKV, hk]
    · simp [setKV, lookupKV, hk, ih]

theorem lookupKV_setKV_ne {α β : Type} [DecidableEq α]
    (l : List (α × β)) (k k2 : α) (v : β) (h : k ≠ k2) :
    lookupKV (setKV l k v) k2 = lookupKV l k2 := by
  induction l with
  | nil => simp [setKV, lookupKV, h]
  | cons hd t ih =>
    obtain ⟨k1, v1⟩ := hd
    by_cases hk : k1 = k
    · simp [setKV, lookupKV, hk, h]
    · simp [setKV, lookupKV, hk, ih]

/-- Rust's truncating division and the spec's floor division decide the violation
threshold identically for a positive divisor and a non-negative threshold: they agree
on non-negative numerators, and on negative numerators both quotients are
non-positive, hence below the threshold. -/
theorem tdiv_gt_iff_fdiv_gt {n a m : Int} (ha : 0 < a) (hm : 0 ≤ m) :
    (Int.tdiv n a > m ↔ Int.fdiv n a > m) := by
  rcases le_or_lt 0 n with hn | hn
  · rw [Int.fdiv_eq_tdiv hn ha.le]
  · have h1 : 0 ≤ Int.tdiv (-n) a := Int.tdiv_nonneg (by omega) ha.le
    have h2 : Int.tdiv (-n) a = -(Int.tdiv n a) := Int.neg_tdiv n a
    have hf : Int.fdiv n a < 0 := Int.fdiv_neg' hn ha
    constructor <;> intro h <;> omega

/-- Branch-resolved form of a successful `update_value`. -/
theorem update_value_ok_shape (st : CoreState) (admin caller : Address)
    (id : String) (v : Int) (c : Commitment)
    (hadmin : st.admin = some admin)
    (hauth : caller = admin ∨ st.allocationContract = some caller)
    (hv : 0 ≤ v)
    (hc : lookupKV st.commitments id = some c)
    (hactive : c.status = "active") :
    update_value st caller id v = .ok ((), noInteractions,
      { st with
        commitments := setKV st.commitments id
          { c with
            current_value := v
            status :=
              if (if c.amount > 0 then Int.tdiv ((c.amount - v) * 100) c.amount else 0) >
                  (c.rules.max_loss_percent : Int)
              then "violated" else c.status }
        totalValueLocked := st.totalValueLocked - c.current_value + v }) := by
  simp only [update_value, hadmin, hc, hactive]
  rw [if_neg (by tauto)]
  rw [if_neg (by omega)]
  simp [hactive]

/-- A pre-expiry `settle` fails `NotExpired` (before any status check). -/
theorem settle_not_expired (st : CoreState) (now : Nat) (id : String) (c : Commitment)
    (hg : st.reentrancyGuard = false) (hp : st.paused = false)
    (hc : lookupKV st.commitments id = some c)
    (hexp : now < c.expires_at) :
    settle st now id = .error .NotExpired := by
  simp [settle, hg, hp, hc, hexp]

/-- An expired `settle` on an already-settled commitment fails `AlreadySettled`. -/
theorem settle_already_settled (st : CoreState) (now : Nat) (id : String) (c : Commitment)
    (hg : st.reentrancyGuard = false) (hp : st.paused = false)
    (hc : lookupKV st.commitments id = some c)
    (hexp : ¬ now < c.expires_at) (hs : c.status = "settled") :
    settle st now id = .error .AlreadySettled := by
  simp [settle, hg, hp, hc, hexp, hs]

/-- An expired `settle` on any other non-active commitment fails `NotActive`. -/
theorem settle_not_active (st : CoreState) (now : Nat) (id : String) (c : Commitment)
    (hg : st.reentrancyGuard = false) (hp : st.paused = false)
    (hc : lookupKV st.commitments id = some c)
    (hexp : ¬ now < c.expires_at) (hs : c.status ≠ "settled") (ha : c.status ≠ "active") :
    settle st now id = .error .NotActive := by
  simp [settle, hg, hp, hc, hexp, hs, ha]

/-- Branch-resolved form of a successful `settle`. -/
theorem settle_ok_shape (st : CoreState) (now : Nat) (id : String) (c : Commitment)
    (n : Address)
    (hg : st.reentrancyGuard = false) (hp : st.paused = false)
    (hc : lookupKV st.commitments id = some c)
    (hexp : ¬ now < c.expires_at) (hactive : c.status = "active")
    (hnft : st.nftContract = some n) :
    settle st now id = .ok ((),
      { transfers := [(coreContractAddress, c.owner, c.current_value)]
      , nftCalls := [NftCall.settleToken c.nft_token_id] },
      { st with
        commitments := setKV st.commitments id { c with status := "settled" }
        ownerCommitments := setKV st.ownerCommitments c.owner
          (removeFirst ((lookupKV st.ownerCommitments c.owner).getD []) id)
        totalValueLocked :=
          if st.totalValueLocked > c.current_value
          then st.totalValueLocked - c.current_value else 0 }) := by
  simp [settle, hg, hp, hc, hexp, hactive, hnft]

/-- Branch-resolved form of a successful `early_exit`; the resulting
`totalValueLocked` is literally `st.totalValueLocked - 0` because the source reads
the commitment's `current_value` after having set it to 0. -/
theorem early_exit_ok_shape (st : CoreState) (id : String) (caller : Address)
    (c : Commitment) (n : Address)
    (hg : st.reentrancyGuard = false) (hp : st.paused = false)
    (hc : lookupKV st.commitments id = some c)
    (howner : c.owner = caller) (hactive : c.status = "active")
    (hnft : st.nftContract = some n) :
    early_exit st id caller = .ok ((),
      { transfers :=
          if c.current_value - SafeMath_penalty_amount c.current_value c.rules.early_exit_penalty > 0
          then [(coreContractAddress, c.owner,
                 c.current_value - SafeMath_penalty_amount c.current_value c.rules.early_exit_penalty)]
          else []
      , nftCalls := [NftCall.settleToken c.nft_token_id] },
      { st with
        commitments := setKV st.commitments id
          { c with status := "early_exit", current_value := 0 }
        totalValueLocked := st.totalValueLocked - 0 }) := by
  simp [early_exit, hg, hp, hc, howner, hactive, hnft]

/-- `early_exit` on a non-active commitment fails `NotActive`. -/
theorem early_exit_not_active (st : CoreState) (id : String) (caller : Address)
    (c : Commitment)
    (hg : st.reentrancyGuard = false) (hp : st.paused = false)
    (hc : lookupKV st.commitments id = some c)
    (howner : c.owner = caller) (ha : c.status ≠ "active") :
    early_exit st id caller = .error .NotActive := by
  simp [early_exit, hg, hp, hc, howner, ha]

/-- A successful `attest` appends exactly one attestation for the target commitment,
leaves every other log untouched, and does not change the stored fee total; it
succeeds for every `verifier` whenever the target commitment exists in the core
ledger. -/
theorem attest_ok_append (s : EngineState) (core : CoreState) (now : Nat)
    (id ty : String) (data : List (String × String)) (verifier : Address)
    (c : Commitment) (hc : lookupKV core.commitments id = some c) :
    ∃ s2 b, attest s core now id ty data verifier = .ok s2 ∧
      get_attestations s2 id = get_attestations s id ++
        [{ commitment_id := id, timestamp := now, attestation_type := ty, data := data
         , is_compliant := b, verified_by := verifier }] ∧
      (∀ id2, id2 ≠ id → get_attestations s2 id2 = get_attestations s id2) ∧
      (get_health_state_or_default s2 id).fees_generated =
        (get_health_state_or_default s id).fees_generated := by
  cases hv : verify_compliance s core now id with
  | error e =>
    exfalso
    by_cases hst : c.status = "active" <;>
      simp [verify_compliance, hc, get_health_metrics, check_violations, hst] at hv
  | ok b =>
    have ha : attest s core now id ty data verifier =
        .ok { s with
              attestations := setKV s.attestations id
                ((lookupKV s.attestations id).getD [] ++
                  [{ commitment_id := id, timestamp := now, attestation_type := ty
                   , data := data, is_compliant := b, verified_by := verifier }])
              health := setKV s.health id
                { (lookupKV s.health id).getD defaultHealthState with
                  last_attestation := now } } := by
      simp [attest, hv, get_health_state_or_default]
    refine ⟨_, b, ha, ?_, ?_, ?_⟩
    · simp [get_attestations, lookupKV_setKV_self]
    · intro id2 h2
      simp [get_attestations, lookupKV_setKV_ne _ _ _ _ (fun h => h2 h.symm)]
    · simp [get_health_state_or_default, lookupKV_setKV_self]

-- ─── claim theorems ──────────────────────────────────────────────────────────

/-- C1: the spec claims TotalValueLocked equals the sum of currentValue over Active
commitments in every reachable state, preserved by all five operations.  Evaluated on
the code: the invariant holds after `create_commitment`, but a successful
`early_exit` leaves TVL at 1000 while no Active commitment remains (the source
subtracts the already-zeroed `current_value`), a successful `allocate` reduces an
Active commitment's value without touching TVL, and a Violated `update_value` removes
the commitment from the Active set while adjusting TVL only by the value delta - so
the claimed invariant is broken by three of the five operations. -/
theorem c1_tvl_aggregate_breaks :
    tvlInvariant exStCreated = true ∧
    (early_exit exStCreated "c_0" 3).toOption.isSome = true ∧
    tvlInvariant exStExited = false ∧
    exStExited.totalValueLocked = 1000 ∧
    sumActiveValue exStExited = 0 ∧
    (allocate exStCreated "c_0" 50 100).toOption.isSome = true ∧
    tvlInvariant exStAllocated = false ∧
    (update_value exStCreated 1 "c_0" 700).toOption.isSome = true ∧
    tvlInvariant exStViolated = false := by
  decide

/-- C2: on an Active commitment with pre-exit value 1000 and 10% penalty,
`early_exit` by the owner computes penalty 100, transfers 900 to the owner, sets
status to `"early_exit"` and forces `current_value` to 0 - as the claim states - but
it does NOT decrease TotalValueLocked (it stays 1000: the source subtracts the field
it has just zeroed), and the outgoing NFT invocation is the entry named `"settle"`
(which rejects pre-expiry tokens with `NotExpired`), not `mark_inactive`. -/
theorem c2_early_exit_effects_eval :
    early_exit exStCreated "c_0" 3 =
      .ok ((), { transfers := [(coreContractAddress, 3, 900)]
               , nftCalls := [NftCall.settleToken 7] }, exStExited) ∧
    SafeMath_penalty_amount 1000 10 = 100 ∧
    (lookupKV exStExited.commitments "c_0").map Commitment.status = some "early_exit" ∧
    (lookupKV exStExited.commitments "c_0").map Commitment.current_value = some 0 ∧
    exStCreated.totalValueLocked = 1000 ∧
    exStExited.totalValueLocked = 1000 ∧
    nft_settle exNftSt 0 7 = .error .NotExpired ∧
    (mark_inactive exNftSt 7).toOption.map
      (fun s => (lookupKV s.nfts 7).map CommitmentNFT.is_active) = some (some false) := by
  decide

/-- C3: for an Active commitment with positive lockedAmount and non-negative
newValue, a successful `update_value` transitions the status to Violated exactly when
`floor((lockedAmount − newValue)·100 / lockedAmount)` strictly exceeds
`rules.maxLossPercent`; in particular with lockedAmount 1000 and maxLoss 10,
newValue 900 stays Active and newValue 890 becomes Violated. -/
theorem c3_update_value_violation_threshold (st : CoreState) (admin : Address)
    (id : String) (c : Commitment) (v : Int)
    (hadmin : st.admin = some admin)
    (hc : lookupKV st.commitments id = some c)
    (hactive : c.status = "active")
    (hamount : 0 < c.amount) (hv : 0 ≤ v) :
    (∃ st2, update_value st admin id v = .ok ((), noInteractions, st2) ∧
      ((lookupKV st2.commitments id).map Commitment.status = some "violated" ↔
        lossPercentSpec c.amount v > (c.rules.max_loss_percent : Int))) ∧
    statusAfterUpdate exStCreated 1 "c_0" 900 = some "active" ∧
    statusAfterUpdate exStCreated 1 "c_0" 890 = some "violated" := by
  refine ⟨⟨_, update_value_ok_shape st admin admin id v c hadmin (Or.inl rfl) hv hc hactive, ?_⟩,
    by decide, by decide⟩
  rw [lookupKV_setKV_self]
  simp only [Option.map_some, if_pos hamount, Option.some_inj, lossPercentSpec]
  have hb := tdiv_gt_iff_fdiv_gt (n := (c.amount - v) * 100) hamount
    (Int.natCast_nonneg c.rules.max_loss_percent)
  by_cases hcond : Int.tdiv ((c.amount - v) * 100) c.amount > (c.rules.max_loss_percent : Int)
  · simp [hcond, hb.mp hcond]
  · have hf : ¬ Int.fdiv ((c.amount - v) * 100) c.amount > (c.rules.max_loss_percent : Int) :=
      fun h => hcond (hb.mpr h)
    simp [hcond, hf, hactive]

/-- Witness for C3 at lockedAmount 1000, maxLoss 10, newValue 890. -/
theorem c3_update_value_violation_threshold_witness :
    exStCreated.admin = some 1 ∧
    (∃ st2, update_value exStCreated 1 "c_0" 890 = .ok ((), noInteractions, st2) ∧
      ((lookupKV st2.commitments "c_0").map Commitment.status = some "violated" ↔
        lossPercentSpec exCommitment.amount 890 > (exCommitment.rules.max_loss_percent : Int))) :=
  ⟨by decide,
   (c3_update_value_violation_threshold exStCreated 1 "c_0" exCommitment 890
     (by decide) (by decide) (by decide) (by decide) (by decide)).1⟩

/-- C4: `settle` on an existing commitment fails `NotExpired` before expiry; once
expired it fails `AlreadySettled` on an already-settled commitment and `NotActive`
for any other non-Active status; on an expired Active commitment it succeeds,
transfers exactly `current_value` to the owner and sets status `"settled"`, after
which a second `settle` fails `AlreadySettled` and an `early_exit` fails
`NotActive`. -/
theorem c4_settle_error_order_and_success (st : CoreState) (now : Nat) (id : String)
    (c : Commitment) (n : Address)
    (hg : st.reentrancyGuard = false) (hp : st.paused = false)
    (hc : lookupKV st.commitments id = some c)
    (hnft : st.nftContract = some n) :
    (now < c.expires_at → settle st now id = .error .NotExpired) ∧
    (¬ now < c.expires_at → c.status = "settled" →
      settle st now id = .error .AlreadySettled) ∧
    (¬ now < c.expires_at → c.status ≠ "settled" → c.status ≠ "active" →
      settle st now id = .error .NotActive) ∧
    (¬ now < c.expires_at → c.status = "active" →
      ∃ st2, settle st now id = .ok ((),
          { transfers := [(coreContractAddress, c.owner, c.current_value)]
          , nftCalls := [NftCall.settleToken c.nft_token_id] }, st2) ∧
        (lookupKV st2.commitments id).map Commitment.status = some "settled" ∧
        settle st2 now id = .error .AlreadySettled ∧
        early_exit st2 id c.owner = .error .NotActive) := by
  refine ⟨fun hexp => settle_not_expired st now id c hg hp hc hexp,
          fun hexp hs => settle_already_settled st now id c hg hp hc hexp hs,
          fun hexp hs ha => settle_not_active st now id c hg hp hc hexp hs ha,
          fun hexp hactive => ?_⟩
  refine ⟨_, settle_ok_shape st now id c n hg hp hc hexp hactive hnft, ?_, ?_, ?_⟩
  · rw [lookupKV_setKV_self]
    rfl
  · exact settle_already_settled _ now id { c with status := "settled" } hg hp
      (lookupKV_setKV_self _ id _) hexp rfl
  · exact early_exit_not_active _ id c.owner { c with status := "settled" } hg hp
      (lookupKV_setKV_self _ id _) rfl (by simp)

/-- Witness for C4 on the example commitment settled exactly at its expiry time. -/
theorem c4_settle_error_order_and_success_witness :
    (¬ 2592000 < exCommitment.expires_at) ∧
    (∃ st2, settle exStCreated 2592000 "c_0" = .ok ((),
        { transfers := [(coreContractAddress, 3, 1000)]
        , nftCalls := [NftCall.settleToken 7] }, st2) ∧
      (lookupKV st2.commitments "c_0").map Commitment.status = some "settled" ∧
      settle st2 2592000 "c_0" = .error .AlreadySettled ∧
      early_exit st2 "c_0" 3 = .error .NotActive) :=
  ⟨by decide,
   (c4_settle_error_order_and_success exStCreated 2592000 "c_0" exCommitment 2
     (by decide) (by decide) (by decide) (by decide)).2.2.2 (by decide) (by decide)⟩

/-- C5 counterexample: address 5 is added to the authorized-updater set via
`add_updater` by the admin, no allocation contract is configured, yet its
`update_value` call is rejected `Unauthorized` - refuting the claim that every
member of the authorized-updater set may call `update_value`. -/
theorem c5_added_updater_rejected :
    (5 : Address) ∈ exStWithUpdater.authorizedUpdaters ∧
    exStWithUpdater.admin = some 1 ∧
    exStWithUpdater.allocationContract = none ∧
    update_value exStWithUpdater 5 "c_0" 900 = .error .Unauthorized := by
  decide

/-- C5 (amended): on an initialized ledger, `update_value` is rejected
`Unauthorized` exactly when the caller is neither the admin nor the designated
allocation contract - the authorized-updater set maintained by `add_updater` is
never consulted. -/
theorem c5_update_value_admin_or_allocation_only (st : CoreState)
    (admin caller : Address) (id : String) (v : Int)
    (hadmin : st.admin = some admin) :
    (update_value st caller id v = .error .Unauthorized ↔
      ¬ (caller = admin ∨ st.allocationContract = some caller)) := by
  simp only [update_value, hadmin]
  rcases Decidable.em (caller = admin ∨ st.allocationContract = some caller) with hauth | hauth
  · rw [if_neg (not_not_intro hauth)]
    refine iff_of_false ?_ (by simp [hauth])
    split
    · simp
    · split
      · simp
      · split
        · simp
        · simp
  · rw [if_pos hauth]
    simp [hauth]

/-- Witness for C5 (amended) at the state holding updater 5. -/
theorem c5_update_value_admin_or_allocation_only_witness :
    exStWithUpdater.admin = some 1 ∧
    (update_value exStWithUpdater 5 "c_0" 900 = .error .Unauthorized ↔
      ¬ ((5 : Address) = 1 ∨ exStWithUpdater.allocationContract = some 5)) :=
  ⟨by decide,
   c5_update_value_admin_or_allocation_only exStWithUpdater 1 5 "c_0" 900 (by decide)⟩

/-- C6 counterexample: verifier 99 appears on no list anywhere (the engine has no
verifier whitelist at all), yet its `attest` call succeeds and records it as
`verified_by` - refuting the claim that attest fails `Unauthorized` for
non-whitelisted verifiers. -/
theorem c6_attest_succeeds_for_any_verifier :
    (attest exEngine exStCreated 0 "c_0" "health_check" [] 99).toOption.isSome = true ∧
    (get_attestations
      (engineStateOf (attest exEngine exStCreated 0 "c_0" "health_check" [] 99))
      "c_0").map Attestation.verified_by = [99] := by
  decide

/-- C6 (amended): `attest` is public - for every verifier, provided the target
commitment exists in the core ledger, the call succeeds (never `Unauthorized`) and
appends exactly one `Attestation` to that commitment's log, preserving all existing
entries and every other commitment's log. -/
theorem c6_attest_public_appends_one (s : EngineState) (core : CoreState) (now : Nat)
    (id ty : String) (data : List (String × String)) (c : Commitment)
    (hc : lookupKV core.commitments id = some c) :
    ∀ verifier : Address, ∃ s2 b,
      attest s core now id ty data verifier = .ok s2 ∧
      get_attestations s2 id = get_attestations s id ++
        [{ commitment_id := id, timestamp := now, attestation_type := ty, data := data
         , is_compliant := b, verified_by := verifier }] ∧
      (∀ id2, id2 ≠ id → get_attestations s2 id2 = get_attestations s id2) := by
  intro verifier
  obtain ⟨s2, b, ha, h1, h2, _⟩ := attest_ok_append s core now id ty data verifier c hc
  exact ⟨s2, b, ha, h1, h2⟩

/-- Witness for C6 (amended) with verifier 99 on the example ledger. -/
theorem c6_attest_public_appends_one_witness :
    lookupKV exStCreated.commitments "c_0" = some exCommitment ∧
    (∃ s2 b, attest exEngine exStCreated 0 "c_0" "health_check" [] 99 = .ok s2 ∧
      get_attestations s2 "c_0" = get_attestations exEngine "c_0" ++
        [{ commitment_id := "c_0", timestamp := 0, attestation_type := "health_check"
         , data := [], is_compliant := b, verified_by := 99 }] ∧
      (∀ id2, id2 ≠ "c_0" → get_attestations s2 id2 = get_attestations exEngine id2)) :=
  ⟨by decide,
   c6_attest_public_appends_one exEngine exStCreated 0 "c_0" "health_check" []
     exCommitment (by decide) 99⟩

/-- C7 counterexample: two `attest(c_0, "fee_generation", {amount: ...})` calls with
amounts 10 and 20 succeed, yet `getHealthMetrics(c_0).feesGenerated` is 0, not the
claimed 30 - attest never parses or accumulates fee amounts. -/
theorem c7_fee_attestations_not_accumulated :
    (attest exEngine exStCreated 0 "c_0" "fee_generation" [("amount", "10")] 9).toOption.isSome
      = true ∧
    (attest c7Engine1 exStCreated 0 "c_0" "fee_generation" [("amount", "20")] 9).toOption.isSome
      = true ∧
    (get_health_metrics c7Engine2 exStCreated "c_0").map HealthMetrics.fees_generated =
      .ok 0 ∧
    (0 : Int) ≠ 30 := by
  decide

/-- C7 (amended): `attest` leaves `HealthState.feesGenerated` unchanged regardless
of attestation kind or payload; the fee total accumulates only through
`record_fees`, which adds with plain (non-saturating) integer addition. -/
theorem c7_fees_accumulate_only_via_record_fees (s : EngineState) (core : CoreState)
    (now : Nat) (id ty : String) (data : List (String × String)) (verifier : Address)
    (c : Commitment) (s2 : EngineState) (fee : Int) :
    (lookupKV core.commitments id = some c →
      attest s core now id ty data verifier = .ok s2 →
      (get_health_state_or_default s2 id).fees_generated =
        (get_health_state_or_default s id).fees_generated) ∧
    ((get_health_state_or_default (record_fees s id fee) id).fees_generated =
      (get_health_state_or_default s id).fees_generated + fee) := by
  constructor
  · intro hc h
    obtain ⟨s3, b, ha, _, _, hf⟩ := attest_ok_append s core now id ty data verifier c hc
    have hs : s2 = s3 := Except.ok.inj (h.symm.trans ha)
    rw [hs]
    exact hf
  · simp [record_fees, get_health_state_or_default, lookupKV_setKV_self]

/-- Witness for C7 (amended): an `attest` with a fee payload leaves the fee total
unchanged, while `record_fees` adds 10. -/
theorem c7_fees_accumulate_only_via_record_fees_witness :
    lookupKV exStCreated.commitments "c_0" = some exCommitment ∧
    (get_health_state_or_default c7Engine1 "c_0").fees_generated =
      (get_health_state_or_default exEngine "c_0").fees_generated ∧
    (get_health_state_or_default (record_fees exEngine "c_0" 10) "c_0").fees_generated =
      (get_health_state_or_default exEngine "c_0").fees_generated + 10 :=
  ⟨by decide,
   (c7_fees_accumulate_only_via_record_fees exEngine exStCreated 0 "c_0"
     "fee_generation" [("amount", "10")] 9 exCommitment c7Engine1 10).1
     (by decide) (by decide),
   (c7_fees_accumulate_only_via_record_fees exEngine exStCreated 0 "c_0"
     "fee_generation" [("amount", "10")] 9 exCommitment c7Engine1 10).2⟩

/-- C8: the spec claims `recordDrawdown` overwrites a stored drawdown percentage
(last-write-wins, 5 then 15 yielding 15).  Evaluated on the code: both calls
succeed, but `record_drawdown` discards its percentage argument entirely (it only
files a `"drawdown"` attestation), `HealthState` has no drawdown field, and
`getHealthMetrics(c_0).drawdownPercent` is recomputed live from the ledger - here 0,
not 15. -/
theorem c8_record_drawdown_ignores_argument :
    (record_drawdown exEngine exStCreated 0 "c_0" 5).toOption.isSome = true ∧
    (record_drawdown c8Engine1 exStCreated 0 "c_0" 15).toOption.isSome = true ∧
    (get_health_metrics c8Engine2 exStCreated "c_0").map HealthMetrics.drawdown_percent =
      .ok 0 ∧
    (0 : Int) ≠ 15 ∧
    (get_attestations c8Engine2 "c_0").map Attestation.attestation_type =
      ["drawdown", "drawdown"] := by
  decide

/-- C9 counterexample: a Violated transition via `update_value(c_0, 700)` retains
the record but leaves `current_value` at 700 (not driven to 0) and leaves `c_0` in
the owner's index - refuting the claim that every terminal transition zeroes the
value and removes the id from the owner index. -/
theorem c9_violated_commitment_keeps_value_and_index :
    (update_value exStCreated 1 "c_0" 700).toOption.isSome = true ∧
    (lookupKV exStViolated.commitments "c_0").map Commitment.status = some "violated" ∧
    (lookupKV exStViolated.commitments "c_0").map Commitment.current_value = some 700 ∧
    (700 : Int) ≠ 0 ∧
    (lookupKV exStViolated.ownerCommitments 3).getD [] = ["c_0"] := by
  decide

/-- C9 (amended): terminal records are retained (never deleted), but the claimed
cleanup is only partial and differs per operation: `settle` removes the id from the
owner index while leaving `current_value` at the settlement amount; `early_exit`
zeroes `current_value` while leaving the owner index unchanged; the Violated
transition in `update_value` leaves `current_value` at the new value and the owner
index unchanged. -/
theorem c9_terminal_states_retained_partial_cleanup (st : CoreState) (now : Nat)
    (id : String) (caller : Address) (v : Int) (c : Commitment) (n : Address)
    (hg : st.reentrancyGuard = false) (hp : st.paused = false)
    (hc : lookupKV st.commitments id = some c)
    (hnft : st.nftContract = some n) :
    (¬ now < c.expires_at → c.status = "active" →
      ∃ st2 tr, settle st now id = .ok ((), tr, st2) ∧
        lookupKV st2.commitments id = some { c with status := "settled" } ∧
        (lookupKV st2.ownerCommitments c.owner).getD [] =
          removeFirst ((lookupKV st.ownerCommitments c.owner).getD []) id) ∧
    (c.owner = caller → c.status = "active" →
      ∃ st2 tr, early_exit st id caller = .ok ((), tr, st2) ∧
        lookupKV st2.commitments id =
          some { c with status := "early_exit", current_value := 0 } ∧
        st2.ownerCommitments = st.ownerCommitments) ∧
    (st.admin = some caller → 0 ≤ v → 0 < c.amount → c.status = "active" →
      (c.rules.max_loss_percent : Int) < Int.tdiv ((c.amount - v) * 100) c.amount →
      ∃ st2 tr, update_value st caller id v = .ok ((), tr, st2) ∧
        lookupKV st2.commitments id =
          some { c with current_value := v, status := "violated" } ∧
        st2.ownerCommitments = st.ownerCommitments) := by
  refine ⟨fun hexp hactive => ?_, fun howner hactive => ?_,
          fun hadmin hv hamount hactive hviol => ?_⟩
  · refine ⟨_, _, settle_ok_shape st now id c n hg hp hc hexp hactive hnft, ?_, ?_⟩
    · exact lookupKV_setKV_self _ id _
    · exact congrArg (Option.getD · []) (lookupKV_setKV_self _ c.owner _)
  · refine ⟨_, _, early_exit_ok_shape st id caller c n hg hp hc howner hactive hnft,
      ?_, rfl⟩
    exact lookupKV_setKV_self _ id _
  · refine ⟨_, _, update_value_ok_shape st caller caller id v c hadmin (Or.inl rfl)
      hv hc hactive, ?_, rfl⟩
    rw [lookupKV_setKV_self]
    simp [if_pos hamount, hviol]

/-- Witness for C9 on the example commitment's early exit: value zeroed, owner
index untouched. -/
theorem c9_terminal_states_retained_partial_cleanup_witness :
    lookupKV exStCreated.commitments "c_0" = some exCommitment ∧
    (∃ st2 tr, early_exit exStCreated "c_0" 3 = .ok ((), tr, st2) ∧
      lookupKV st2.commitments "c_0" =
        some { exCommitment with status := "early_exit", current_value := 0 } ∧
      st2.ownerCommitments = exStCreated.ownerCommitments) :=
  ⟨by decide,
   (c9_terminal_states_retained_partial_cleanup exStCreated 2592000 "c_0" 3 700
     exCommitment 2 (by decide) (by decide) (by decide) (by decide)).2.1
     (by decide) (by decide)⟩

/-- C10: a successful `mint` is entirely independent of the caller-supplied
commitment id (the same result for any two supplied ids); it assigns the current
counter as token id and stores `format_commitment_id token_id` as
`metadata.commitment_id` - `"COMMIT_{token_id}"` for token ids below 100 and the
constant `"COMMIT_MAX"` for every token id at or above 100, whose shared
reverse-lookup key then resolves to the most recently minted such token. -/
theorem c10_mint_ignores_supplied_commitment_id (st : NftState) (now : Nat)
    (caller owner : Address) (cid cid2 : String) (d m : Nat) (ty : String)
    (amt : Int) (asset : Address) (pen : Nat) (admin : Address)
    (hg : st.reentrancyGuard = false) (hem : st.emergency = false)
    (hp : st.paused = false)
    (hadmin : st.admin = some admin)
    (hauth : caller = admin ∨ st.coreContract = some caller ∨
      caller ∈ st.authorizedMinters)
    (hd : d ≠ 0) (hm : ¬ m > 100)
    (hty : ty = "safe" ∨ ty = "balanced" ∨ ty = "aggressive")
    (hamt : ¬ amt ≤ 0)
    (ho1 : ¬ d * 86400 ≥ 2 ^ 64) (ho2 : ¬ now + d * 86400 ≥ 2 ^ 64) :
    ∃ st2, mint st now caller owner cid d m ty amt asset pen =
        .ok (st.tokenCounter, st2) ∧
      mint st now caller owner cid2 d m ty amt asset pen =
        .ok (st.tokenCounter, st2) ∧
      (lookupKV st2.nfts st.tokenCounter).map (fun nft => nft.metadata.commitment_id) =
        some (format_commitment_id st.tokenCounter) ∧
      (st.tokenCounter < 100 →
        format_commitment_id st.tokenCounter = "COMMIT_" ++ Nat.repr st.tokenCounter) ∧
      (100 ≤ st.tokenCounter →
        format_commitment_id st.tokenCounter = "COMMIT_MAX" ∧
        (get_commitment_by_id st2 "COMMIT_MAX").map CommitmentNFT.token_id =
          .ok st.tokenCounter) := by
  have hmint : mint st now caller owner cid d m ty amt asset pen = .ok (st.tokenCounter,
      { st with
        tokenCounter := st.tokenCounter + 1
        commitmentIdIndex := setKV st.commitmentIdIndex
          (format_commitment_id st.tokenCounter) st.tokenCounter
        nfts := setKV st.nfts st.tokenCounter
          { owner := owner
          , token_id := st.tokenCounter
          , metadata :=
              { commitment_id := format_commitment_id st.tokenCounter
              , duration_days := d, max_loss_percent := m, commitment_type := ty
              , created_at := now, expires_at := now + d * 86400
              , initial_amount := amt, asset_address := asset }
          , is_active := true
          , early_exit_penalty := pen }
        ownerBalance := setKV st.ownerBalance owner
          (((lookupKV st.ownerBalance owner).getD 0) + 1)
        ownerTokens := setKV st.ownerTokens owner
          (((lookupKV st.ownerTokens owner).getD []) ++ [st.tokenCounter])
        tokenIds := st.tokenIds ++ [st.tokenCounter] }) := by
    simp only [mint, hg, hem, hp, hadmin]
    rw [if_neg (by simp)]
    rw [if_neg (by simp)]
    rw [if_neg (by simp)]
    rw [if_neg (by tauto)]
    rw [if_neg (by tauto)]
    rw [if_neg hm]
    rw [if_neg (by tauto)]
    rw [if_neg hamt]
    rw [if_neg ho1]
    rw [if_neg ho2]
  refine ⟨_, hmint, hmint.symm ▸ rfl, ?_, ?_, ?_⟩
  · rw [lookupKV_setKV_self]
    rfl
  · intro h
    simp [format_commitment_id, h]
  · intro h
    have hfmt : format_commitment_id st.tokenCounter = "COMMIT_MAX" := by
      simp [format_commitment_id, Nat.not_lt.mpr h]
    refine ⟨hfmt, ?_⟩
    simp only [get_commitment_by_id]
    rw [← hfmt, lookupKV_setKV_self]
    simp [lookupKV_setKV_self, Except.map]

/-- Witness for C10 at token counter 100: both supplied ids give the same token,
stored under "COMMIT_MAX". -/
theorem c10_mint_ignores_supplied_commitment_id_witness :
    exNft100.admin = some 1 ∧
    (∃ st2, mint exNft100 0 1 3 "ignored-id" 30 10 "balanced" 1000 4 10 =
        .ok (100, st2) ∧
      mint exNft100 0 1 3 "another-id" 30 10 "balanced" 1000 4 10 =
        .ok (100, st2) ∧
      (lookupKV st2.nfts 100).map (fun nft => nft.metadata.commitment_id) =
        some (format_commitment_id 100) ∧
      ((100 : Nat) < 100 → format_commitment_id 100 = "COMMIT_" ++ Nat.repr 100) ∧
      ((100 : Nat) ≤ 100 → format_commitment_id 100 = "COMMIT_MAX" ∧
        (get_commitment_by_id st2 "COMMIT_MAX").map CommitmentNFT.token_id =
          .ok 100)) :=
  ⟨rfl,
   c10_mint_ignores_supplied_commitment_id exNft100 0 1 3 "ignored-id" "another-id"
     30 10 "balanced" 1000 4 10 1 rfl rfl rfl rfl (Or.inl rfl) (by decide) (by decide)
     (Or.inr (Or.inl rfl)) (by decide) (by decide) (by decide)⟩
